import Mathlib

/-
  Verification of the tabular ingestion pipeline and job-status tracker of
  the file-dash-wizard repository.

  The embedding translates the two relevant source files:
  * src/supabase/functions/upload-excel/index.ts  (Tabular Decoder + Ingestion
    Normalizer: CSV and spreadsheet paths of the upload handler), and
  * src/src/components/FileUpload.tsx             (Upload Coordinator
    `uploadFile` and Job Status Tracker `fetchScrapRecords` + the polling
    `useEffect`).

  JavaScript strings are modelled as `List Char` (`Str`); JavaScript runtime
  values that can appear in a parsed cell are modelled by the closed variant
  `JsVal` (string, integer number, boolean, null, undefined).  A JavaScript
  object built by repeated `obj[key] = value` assignments is modelled as an
  association list with JS assignment semantics (`assign`): an existing key is
  updated in place, a new key is appended, which reproduces JS property
  insertion order.
-/

set_option autoImplicit false

namespace FileDashWizard

/-- A JavaScript string, modelled as its list of characters. -/
abbrev Str := List Char

/-- A JavaScript runtime value as it can appear in a parsed table cell or in a
response body field.  `undef` models the JavaScript value `undefined` (e.g. an
out-of-range array access `row[index]`). -/
inductive JsVal where
  | str (s : Str)
  | num (n : Int)
  | bool (b : Bool)
  | null
  | undef
  deriving DecidableEq

/-- Truthiness of a `JsVal`, as JavaScript evaluates it in a boolean context:
the empty string, `0`, `false`, `null` and `undefined` are falsy. -/
def JsVal.truthy : JsVal → Bool
  | .str s => !s.isEmpty
  | .num n => decide (n ≠ 0)
  | .bool b => b
  | .null => false
  | .undef => false

/-- The JavaScript `a || b` operator on values: `a` when `a` is truthy,
otherwise `b`. -/
def jsOr (a b : JsVal) : JsVal :=
  if a.truthy then a else b

/-- The JavaScript `String(v)` conversion, restricted to the values of
`JsVal`. -/
def JsVal.toJsString : JsVal → Str
  | .str s => s
  | .num n => (toString n).data
  | .bool b => if b then "true".data else "false".data
  | .null => "null".data
  | .undef => "undefined".data

/-- A JavaScript object, as the ordered list of its own enumerable properties
(key/value pairs) in property insertion order. -/
abbrev RecordObj := List (Str × JsVal)

/-- The key list of a record object, in property order. -/
def keysOf (obj : RecordObj) : List Str :=
  obj.map Prod.fst

/-- JavaScript property assignment `obj[k] = v`: updating an existing key
keeps its position, a fresh key is appended at the end. -/
def assign (obj : RecordObj) (k : Str) (v : JsVal) : RecordObj :=
  if k ∈ keysOf obj then
    obj.map (fun p => if p.1 = k then (k, v) else p)
  else
    obj ++ [(k, v)]

/-- The record-building loop `headers.forEach((header, index) => obj[header] =
get(index))` shared by the CSV and spreadsheet row mappings of
src/supabase/functions/upload-excel/index.ts (lines 70-72 and 107-109). -/
def buildRecord (headers : List Str) (get : Nat → JsVal) : RecordObj :=
  (headers.enum).foldl (fun obj p => assign obj p.2 (get p.1)) []

/-- CSV row mapping (upload-excel/index.ts lines 68-73): the cell for column
`i` is `values[i] || ''`, which is the cell itself when present (the empty
string stays empty) and the empty string when the row is too short. -/
def buildCsvRecord (headers : List Str) (values : List Str) : RecordObj :=
  buildRecord headers (fun i => JsVal.str (values.getD i []))

/-- Spreadsheet row mapping (upload-excel/index.ts lines 105-111): the cell
for column `i` is `row[index]`, which is `undefined` when the row is too
short. -/
def buildExcelRecord (headers : List Str) (row : List JsVal) : RecordObj :=
  buildRecord headers (fun i => row.getD i JsVal.undef)

/-- JavaScript `text.split(sep)` for a one-character separator: splitting the
empty string yields `[""]`, and `n` separators yield `n+1` parts. -/
def splitOnChar (sep : Char) : Str → List Str
  | [] => [[]]
  | c :: cs =>
    if c = sep then
      [] :: splitOnChar sep cs
    else
      match splitOnChar sep cs with
      | [] => [[c]]
      | l :: ls => (c :: l) :: ls

/-- JavaScript `s.trim()`: drop whitespace from both ends (ASCII whitespace
model, which agrees with JavaScript on the inputs of interest). -/
def trimChars (cs : Str) : Str :=
  ((cs.dropWhile Char.isWhitespace).reverse.dropWhile Char.isWhitespace).reverse

/-- Field cleanup `h.trim().replace(/"/g, '')` applied to every CSV header
and cell (upload-excel/index.ts lines 65 and 68): trim surrounding whitespace,
then delete every double-quote character, wherever it occurs. -/
def csvField (cell : Str) : Str :=
  (trimChars cell).filter (fun c => decide (c ≠ '"'))

/-- One CSV line split on commas, each field cleaned up by `csvField`. -/
def csvSplitFields (line : Str) : List Str :=
  (splitOnChar ',' line).map csvField

/-- Line filter of upload-excel/index.ts line 62:
`text.split('\n').filter(line => line.trim())` keeps exactly the lines whose
trimmed form is non-empty. -/
def nonBlankLines (text : Str) : List Str :=
  (splitOnChar '\n' text).filter (fun l => decide (trimChars l ≠ []))

/-- CSV path of the upload handler (upload-excel/index.ts lines 59-77): the
first non-blank line is the header line; every later non-blank line becomes
one record via `buildCsvRecord`.  Returns `(headers, records)`. -/
def csvParse (text : Str) : List Str × List RecordObj :=
  match nonBlankLines text with
  | [] => ([], [])
  | headerLine :: dataLines =>
    let headers := csvSplitFields headerLine
    (headers, dataLines.map (fun line => buildCsvRecord headers (csvSplitFields line)))

/-- Header row mapping of the spreadsheet path (upload-excel/index.ts line
101): `headers = data[0].map(h => String(h || ''))`. -/
def excelHeaders (headerRow : List JsVal) : List Str :=
  headerRow.map (fun h => (jsOr h (JsVal.str [])).toJsString)

/-- Spreadsheet path of the upload handler (upload-excel/index.ts lines
100-112) applied to the row-major grid produced by
`XLSX.utils.sheet_to_json(worksheet, {header: 1})`: the first row of the grid
is the header row, every later row becomes one record. -/
def excelDecode (grid : List (List JsVal)) : List Str × List RecordObj :=
  match grid with
  | [] => ([], [])
  | headerRow :: rows =>
    let headers := excelHeaders headerRow
    (headers, rows.map (fun row => buildExcelRecord headers row))

/-- The uploaded file as the handler sees it: declared name, declared MIME
type and (for the CSV path) its text content. -/
structure InFile where
  name : Str
  mime : Str
  text : Str
  deriving DecidableEq

/-- MIME allow-list of upload-excel/index.ts lines 32-36. -/
def validTypes : List Str :=
  ["application/vnd.ms-excel".data,
   "application/vnd.openxmlformats-officedocument.spreadsheetml.sheet".data,
   "text/csv".data]

/-- JavaScript `s.endsWith(suffix)`. -/
def strEndsWith (s suffix : Str) : Bool :=
  decide (suffix = s.drop (s.length - suffix.length))

/-- Type validation of upload-excel/index.ts lines 38-41: MIME in the
allow-list, or one of the three accepted filename extensions. -/
def isValidType (f : InFile) : Bool :=
  validTypes.contains f.mime ||
    strEndsWith f.name ".xlsx".data ||
    strEndsWith f.name ".xls".data ||
    strEndsWith f.name ".csv".data

/-- Decode-time failures of the handler.  `UnsupportedFormat` is the 400
response of lines 43-52 (invalid type); `MalformedInput` is the 500 response
of lines 136-148, produced when the spreadsheet parser throws. -/
inductive DecodeError where
  | UnsupportedFormat (msg : Str)
  | MalformedInput (msg : Str)
  deriving DecidableEq

/-- Error message of the invalid-type 400 response (line 46). -/
def invalidTypeMsg : Str :=
  "Invalid file type. Please upload .xlsx, .xls, or .csv files".data

/-- Successful decode result: sheet name, header list and record list (the
DecodedTable of the spec, already normalized, as the handler builds it). -/
structure ParsedUpload where
  sheetName : Str
  headers : List Str
  records : List RecordObj
  deriving DecidableEq

/-- The upload handler of upload-excel/index.ts (lines 30-134), with the
external SheetJS spreadsheet parser abstracted as the oracle `xlsx`: for a
non-CSV file, `xlsx` is the sheet name and cell grid `XLSX.read` +
`sheet_to_json` produce, or `.error` when `XLSX.read` throws (empty file,
corrupt container), which the handler turns into its 500 failure response. -/
def handleUpload (f : InFile) (xlsx : Except Str (Str × List (List JsVal))) :
    Except DecodeError ParsedUpload :=
  if isValidType f = false then
    .error (.UnsupportedFormat invalidTypeMsg)
  else if strEndsWith f.name ".csv".data then
    let p := csvParse f.text
    .ok ⟨"CSV Data".data, p.1, p.2⟩
  else
    match xlsx with
    | .error e => .error (.MalformedInput e)
    | .ok (sn, grid) =>
      let p := excelDecode grid
      .ok ⟨sn, p.1, p.2⟩

/-- One per-record status row returned by `GET /files/scrap_records/{id}/`
(the ProcessingRecord of the spec), as FileUpload.tsx declares it: an id, a
status string and arbitrary further fields. -/
structure ScrapRecord where
  id : Str
  status : Str
  fields : RecordObj
  deriving DecidableEq

/-- The tracker-relevant component state of FileUpload.tsx: the stored
snapshot `scrapRecords` and the `isPolling` flag. -/
structure TrackerState where
  scrapRecords : List ScrapRecord
  isPolling : Bool
  deriving DecidableEq

/-- Convergence test of FileUpload.tsx line 109:
`data.every(record => record.status === 'done')`. -/
def allDone (data : List ScrapRecord) : Bool :=
  data.all (fun r => decide (r.status = "done".data))

/-- One execution of `fetchScrapRecords` (FileUpload.tsx lines 101-123).
`resp` is the fetch outcome: `none` when the fetch fails or returns non-2xx
(the catch branch returns `false` and leaves the state alone), `some data`
when it succeeds.  On success the snapshot is replaced wholesale, and when
every record's status is the string `done` polling is switched off; the
returned boolean is `allDone`. -/
def fetchScrapRecords (resp : Option (List ScrapRecord)) (s : TrackerState) :
    TrackerState × Bool :=
  match resp with
  | none => (s, false)
  | some data =>
    if allDone data then
      ({ scrapRecords := data, isPolling := false }, true)
    else
      ({ scrapRecords := data, isPolling := s.isPolling }, false)

/-- Poll period of FileUpload.tsx line 138 (2000 ms, i.e. 2 time units). -/
def pollPeriod : Nat := 2

/-- Issue time of the k-th poll request of the polling effect (FileUpload.tsx
lines 125-144), k = 0 being the immediate initial fetch at time 0.
`setInterval(cb, 2000)` fires its callback at 2, 4, 6, ... time units after
registration; the callback is `async` and `setInterval` never waits for the
`await fetchScrapRecords(...)` inside it, so the k-th request is issued at
time `pollPeriod * k` regardless of the latencies `lat` of earlier
responses. -/
def pollIssueTime (_lat : Nat → Nat) (k : Nat) : Nat :=
  pollPeriod * k

/-- Completion time of the k-th poll: its issue time plus its response
latency. -/
def pollCompleteTime (lat : Nat → Nat) (k : Nat) : Nat :=
  pollIssueTime lat k + lat k

/-- Modelled from the spec: the serialized schedule the spec describes, in
which poll k+1 is issued one full period after poll k's response has
completed (the fixed period runs from the end of one poll to the start of the
next).  Used only to compare the spec's schedule with the code's. -/
def serializedIssueTime (lat : Nat → Nat) : Nat → Nat
  | 0 => 0
  | k + 1 => serializedIssueTime lat k + lat k + pollPeriod

/-- Response to the `POST /upload/` request as `uploadFile` consumes it:
the `ok` flag of the fetch response, the `detail` field of the parsed error
body, and the `file_id` and `id` fields of the parsed success body (each
`JsVal.undef` when absent). -/
structure UploadResponse where
  ok : Bool
  detail : JsVal
  file_id : JsVal
  id : JsVal
  deriving DecidableEq

/-- The coordinator-relevant component state of FileUpload.tsx. -/
structure CoordState where
  isProcessing : Bool
  uploadSuccess : Bool
  currentFileId : JsVal
  isPolling : Bool
  deriving DecidableEq

/-- Outcome of one `uploadFile` run: success, or the rejection error whose
message is what `new Error(error.detail || 'Upload failed')` carries. -/
inductive UploadOutcome where
  | success
  | rejected (reason : JsVal)
  deriving DecidableEq

/-- One execution of `uploadFile` (FileUpload.tsx lines 146-189) with a file
staged, applied to the response the backend returned.  On a non-ok response
the function throws `new Error(error.detail || 'Upload failed')`, the catch
branch only raises a toast, and the finally branch resets `isProcessing`; no
other state is touched.  On an ok response it marks success, stores
`data.file_id || data.id` as the current file id and starts polling. -/
def uploadFile (resp : UploadResponse) (s : CoordState) : CoordState × UploadOutcome :=
  if resp.ok then
    ({ isProcessing := false
       uploadSuccess := true
       currentFileId := jsOr resp.file_id resp.id
       isPolling := true }, .success)
  else
    ({ isProcessing := false
       uploadSuccess := s.uploadSuccess
       currentFileId := s.currentFileId
       isPolling := s.isPolling }, .rejected (jsOr resp.detail (JsVal.str "Upload failed".data)))

/-! Helper lemmas about the association-list object model. -/

theorem keysOf_append_single (obj : RecordObj) (k : Str) (v : JsVal) :
    keysOf (obj ++ [(k, v)]) = keysOf obj ++ [k] := by
  simp [keysOf]

theorem keysOf_assign (obj : RecordObj) (k : Str) (v : JsVal) :
    keysOf (assign obj k v) =
      if k ∈ keysOf obj then keysOf obj else keysOf obj ++ [k] := by
  by_cases h : k ∈ keysOf obj
  · rw [if_pos h]
    unfold assign
    rw [if_pos h]
    unfold keysOf
    rw [List.map_map]
    refine List.map_congr_left ?_
    intro p _
    by_cases hpk : p.1 = k
    · simp [hpk]
    · simp [hpk]
  · rw [if_neg h]
    unfold assign
    rw [if_neg h]
    exact keysOf_append_single obj k v

theorem assign_of_not_mem {obj : RecordObj} {k : Str} (v : JsVal)
    (h : k ∉ keysOf obj) :
    assign obj k v = obj ++ [(k, v)] := by
  simp [assign, h]

theorem foldl_assign_eq_append (get : Nat × Str → JsVal) :
    ∀ (ps : List (Nat × Str)) (acc : RecordObj),
      (ps.map Prod.snd).Nodup → (∀ p ∈ ps, p.2 ∉ keysOf acc) →
      ps.foldl (fun obj p => assign obj p.2 (get p)) acc
        = acc ++ ps.map (fun p => (p.2, get p)) := by
  intro ps
  induction ps with
  | nil => intro acc _ _; simp
  | cons p ps ih =>
    intro acc hnd hdisj
    simp only [List.map_cons, List.nodup_cons] at hnd
    simp only [List.foldl_cons]
    rw [assign_of_not_mem (get p) (hdisj p (List.mem_cons_self ..))]
    rw [ih (acc ++ [(p.2, get p)]) hnd.2 ?_]
    · simp
    · intro q hq hmem
      rw [keysOf_append_single] at hmem
      rcases List.mem_append.mp hmem with h | h
      · exact hdisj q (List.mem_cons_of_mem _ hq) h
      · rw [List.mem_singleton] at h
        exact hnd.1 (h ▸ List.mem_map_of_mem Prod.snd hq)

theorem buildRecord_of_nodup (headers : List Str) (get : Nat → JsVal)
    (h : headers.Nodup) :
    buildRecord headers get = headers.enum.map (fun p => (p.2, get p.1)) := by
  unfold buildRecord
  rw [foldl_assign_eq_append (fun p => get p.1) headers.enum []]
  · simp
  · rw [List.enum_map_snd]; exact h
  · intro p _; simp [keysOf]

theorem keysOf_foldl_assign (f g : Nat × Str → JsVal) :
    ∀ (ps : List (Nat × Str)) (acc acc' : RecordObj), keysOf acc = keysOf acc' →
      keysOf (ps.foldl (fun obj p => assign obj p.2 (f p)) acc)
        = keysOf (ps.foldl (fun obj p => assign obj p.2 (g p)) acc') := by
  intro ps
  induction ps with
  | nil => intro acc acc' h; simpa using h
  | cons p ps ih =>
    intro acc acc' h
    simp only [List.foldl_cons]
    exact ih _ _ (by rw [keysOf_assign, keysOf_assign, h])

theorem keysOf_buildRecord (headers : List Str) (get get' : Nat → JsVal) :
    keysOf (buildRecord headers get) = keysOf (buildRecord headers get') :=
  keysOf_foldl_assign (fun p => get p.1) (fun p => get' p.1) headers.enum [] [] rfl

/-! Helper lemmas about line splitting and blank-line filtering. -/

theorem splitOnChar_ne_nil (sep : Char) (cs : Str) : splitOnChar sep cs ≠ [] := by
  induction cs with
  | nil => simp [splitOnChar]
  | cons c cs ih =>
    unfold splitOnChar
    by_cases h : c = sep
    · simp [h]
    · simp only [if_neg h]
      cases hs : splitOnChar sep cs with
      | nil => simp
      | cons l ls => simp

theorem splitOnChar_append_sep (sep : Char) (xs ys : Str) :
    splitOnChar sep (xs ++ sep :: ys) = splitOnChar sep xs ++ splitOnChar sep ys := by
  induction xs with
  | nil => simp [splitOnChar]
  | cons c xs ih =>
    by_cases h : c = sep
    · simp [splitOnChar, h, ih]
    · cases hs : splitOnChar sep xs with
      | nil => exact absurd hs (splitOnChar_ne_nil sep xs)
      | cons l ls => simp [splitOnChar, h, ih, hs]

theorem splitOnChar_of_not_mem (sep : Char) (ys : Str) (h : sep ∉ ys) :
    splitOnChar sep ys = [ys] := by
  induction ys with
  | nil => rfl
  | cons c cs ih =>
    simp only [List.mem_cons, not_or] at h
    have hc : ¬ c = sep := fun e => h.1 e.symm
    simp [splitOnChar, hc, ih h.2]

theorem trimChars_eq_nil (b : Str) (h : ∀ c ∈ b, c.isWhitespace) :
    trimChars b = [] := by
  unfold trimChars
  rw [List.dropWhile_eq_nil_iff.mpr h]
  simp

theorem nonBlankLines_append_blank (text b : Str)
    (hw : ∀ c ∈ b, c.isWhitespace) (hn : '\n' ∉ b) :
    nonBlankLines (text ++ '\n' :: b) = nonBlankLines text := by
  unfold nonBlankLines
  rw [splitOnChar_append_sep, splitOnChar_of_not_mem _ _ hn, List.filter_append]
  simp [trimChars_eq_nil b hw]

theorem csvParse_append_blank (text b : Str)
    (hw : ∀ c ∈ b, c.isWhitespace) (hn : '\n' ∉ b) :
    csvParse (text ++ '\n' :: b) = csvParse text := by
  unfold csvParse
  rw [nonBlankLines_append_blank text b hw hn]

theorem csvParse_append_blanks (text : Str) (blanks : List Str)
    (hb : ∀ b ∈ blanks, (∀ c ∈ b, c.isWhitespace) ∧ '\n' ∉ b) :
    csvParse (text ++ (blanks.map (fun b => '\n' :: b)).flatten) = csvParse text := by
  induction blanks generalizing text with
  | nil => simp
  | cons b bs ih =>
    have h1 := hb b (List.mem_cons_self ..)
    rw [List.map_cons, List.flatten_cons, ← List.append_assoc]
    rw [ih (text ++ '\n' :: b) (fun q hq => hb q (List.mem_cons_of_mem _ hq))]
    exact csvParse_append_blank text b h1.1 h1.2

/-! Concrete inputs used by counterexamples and witnesses. -/

/-- An empty CSV file (valid MIME type, no content). -/
def emptyCsvFile : InFile := ⟨"empty.csv".data, "text/csv".data, []⟩

/-- A file whose MIME type and extension are both unsupported. -/
def plainTextFile : InFile := ⟨"notes.txt".data, "text/plain".data, []⟩

/-- A spreadsheet file whose binary container the spreadsheet parser rejects. -/
def corruptXlsxFile : InFile := ⟨"data.xlsx".data, [], []⟩

/-- A 4xx rejection response whose body carries `detail: "bad header"`. -/
def rejectResp : UploadResponse :=
  ⟨false, JsVal.str "bad header".data, JsVal.undef, JsVal.undef⟩

/-- The coordinator state right before an upload is attempted. -/
def idleCoord : CoordState := ⟨false, false, JsVal.undef, false⟩

/-! Claim theorems. -/

/-- C1 (counterexample): a fetched snapshot whose single record has the
terminal status `failed` does not make the tracker converge — the poll
returns `false` and `isPolling` stays `true` — refuting the claim that a
snapshot in which every record is either Done or Failed triggers
convergence. -/
theorem C1_counterexample :
    (fetchScrapRecords (some [⟨"1".data, "failed".data, []⟩]) ⟨[], true⟩).1.isPolling = true ∧
    (fetchScrapRecords (some [⟨"1".data, "failed".data, []⟩]) ⟨[], true⟩).2 = false := by
  decide

/-- C1 (amended): the tracker converges on a fetched snapshot exactly when
every record in it has status `done`; a `failed` status is not treated as
terminal, so a failed record blocks convergence. -/
theorem C1_amended (data : List ScrapRecord) (s : TrackerState)
    (h : s.isPolling = true) :
    ((fetchScrapRecords (some data) s).1.isPolling = false ∧
        (fetchScrapRecords (some data) s).2 = true) ↔
      allDone data = true := by
  by_cases hd : allDone data = true
  · simp [fetchScrapRecords, hd]
  · simp [fetchScrapRecords, hd, h]

/-- C1 (witness): applying the amended theorem to a concrete all-done
snapshot. -/
theorem C1_amended_witness :
    (fetchScrapRecords (some [⟨"1".data, "done".data, []⟩]) ⟨[], true⟩).1.isPolling = false :=
  ((C1_amended [⟨"1".data, "done".data, []⟩] ⟨[], true⟩ rfl).mpr (by decide)).1

/-- C2 (counterexample): with a response latency of 3 time units, the request
of tick 1 is issued at time 2, strictly before the response of tick 0 has
completed (time 3), and strictly before the serialized schedule of the claim
would issue it (time 5): polls are not serialized and the period does not run
from the end of one poll to the start of the next. -/
theorem C2_counterexample :
    pollIssueTime (fun _ => 3) 1 < pollCompleteTime (fun _ => 3) 0 ∧
    pollIssueTime (fun _ => 3) 1 ≠ serializedIssueTime (fun _ => 3) 1 := by
  decide

/-- C2 (amended): the polling effect issues request k at time
`pollPeriod * k` on a fixed start-to-start schedule that is independent of
the response latencies, and the request of tick k+1 is issued no earlier than
tick k's response completes exactly when that response's latency is at most
the poll period. -/
theorem C2_amended (lat lat' : Nat → Nat) (k : Nat) :
    pollIssueTime lat k = pollPeriod * k ∧
    pollIssueTime lat k = pollIssueTime lat' k ∧
    (pollCompleteTime lat k ≤ pollIssueTime lat (k + 1) ↔ lat k ≤ pollPeriod) := by
  refine ⟨rfl, rfl, ?_⟩
  unfold pollCompleteTime pollIssueTime pollPeriod
  omega

/-- C3 (counterexample): normalizing the CSV table with headers `a,b` and the
single short row `x` pads the missing cell for `b` with the empty string, not
with null. -/
theorem C3_counterexample :
    (csvParse "a,b\nx".data).2 =
      [[("a".data, JsVal.str "x".data), ("b".data, JsVal.str [])]] ∧
    JsVal.str [] ≠ JsVal.null := by
  decide

/-- C3 (amended): for duplicate-free headers, normalizing a row yields one
entry per header in header order; a missing trailing cell is padded with the
empty string in the CSV path and with the JavaScript value `undefined` in the
spreadsheet path (not with null), and cells beyond the header length are
dropped: the record has exactly one entry per header. -/
theorem C3_amended (headers : List Str) (values : List Str) (row : List JsVal)
    (h : headers.Nodup) :
    buildCsvRecord headers values =
      headers.enum.map (fun p => (p.2, JsVal.str (values.getD p.1 []))) ∧
    buildExcelRecord headers row =
      headers.enum.map (fun p => (p.2, row.getD p.1 JsVal.undef)) ∧
    (buildCsvRecord headers values).length = headers.length ∧
    (buildExcelRecord headers row).length = headers.length := by
  have h1 := buildRecord_of_nodup headers (fun i => JsVal.str (values.getD i [])) h
  have h2 := buildRecord_of_nodup headers (fun i => row.getD i JsVal.undef) h
  refine ⟨h1, h2, ?_, ?_⟩
  · unfold buildCsvRecord
    rw [h1]
    simp
  · unfold buildExcelRecord
    rw [h2]
    simp

/-- C3 (witness): applying the amended theorem to headers `a,b` with the
short CSV row `x` and an empty spreadsheet row. -/
theorem C3_amended_witness :
    buildCsvRecord ["a".data, "b".data] ["x".data] =
      (["a".data, "b".data].enum).map
        (fun p => (p.2, JsVal.str (["x".data].getD p.1 []))) :=
  (C3_amended ["a".data, "b".data] ["x".data] [] (by decide)).1

/-- C4 (counterexample): an empty CSV file does not fail with MalformedInput;
the handler returns a successful empty table (no headers, no records). -/
theorem C4_counterexample :
    handleUpload emptyCsvFile (Except.error []) =
      Except.ok ⟨"CSV Data".data, [], []⟩ := by
  rfl

/-- C4 (amended): an invalid declared type fails with the UnsupportedFormat
error; a spreadsheet byte stream the parser cannot read (empty file, corrupt
container) fails with MalformedInput; but the CSV path never fails — an
empty or unparseable CSV text yields a successful (possibly empty) table.
No partial table is returned on failure. -/
theorem C4_amended (f : InFile) (xlsx : Except Str (Str × List (List JsVal))) :
    (isValidType f = false →
        handleUpload f xlsx = Except.error (DecodeError.UnsupportedFormat invalidTypeMsg)) ∧
    (isValidType f = true → strEndsWith f.name ".csv".data = true →
        handleUpload f xlsx =
          Except.ok ⟨"CSV Data".data, (csvParse f.text).1, (csvParse f.text).2⟩) ∧
    (∀ e : Str, isValidType f = true → strEndsWith f.name ".csv".data = false →
        xlsx = Except.error e →
        handleUpload f xlsx = Except.error (DecodeError.MalformedInput e)) := by
  refine ⟨?_, ?_, ?_⟩
  · intro h
    simp [handleUpload, h]
  · intro h hcsv
    simp [handleUpload, h, hcsv]
  · intro e h hcsv hx
    simp [handleUpload, h, hcsv, hx]

/-- C4 (witness): applying the amended theorem to an unsupported file and to
a corrupt spreadsheet container. -/
theorem C4_amended_witness :
    handleUpload plainTextFile (Except.error []) =
      Except.error (DecodeError.UnsupportedFormat invalidTypeMsg) ∧
    handleUpload corruptXlsxFile (Except.error "bad zip".data) =
      Except.error (DecodeError.MalformedInput "bad zip".data) :=
  ⟨(C4_amended plainTextFile (Except.error [])).1 (by decide),
   (C4_amended corruptXlsxFile (Except.error "bad zip".data)).2.2 "bad zip".data
     (by decide) (by decide) rfl⟩

/-- C5 (counterexample): the CSV header line `a,,b` produces the header list
`["a", "", "b"]`: the empty header slot is kept as the empty string, no
positional placeholder is substituted, so not every header slot has a
non-empty key. -/
theorem C5_counterexample :
    (csvParse "a,,b\nx,y,z".data).1 = ["a".data, [], "b".data] ∧
    ([] : Str) ∈ (csvParse "a,,b\nx,y,z".data).1 := by
  decide

/-- C5 (amended): no positional placeholder is introduced for empty headers:
header slot k of the CSV path is exactly the trimmed, quote-stripped raw cell
k (so an empty cell stays the empty string), and a falsy header cell of the
spreadsheet path (undefined, null, empty string, zero, false) becomes the
empty string. -/
theorem C5_amended (line : Str) (row : List JsVal) (k : Nat)
    (hk : (row.getD k JsVal.undef).truthy = false) :
    (csvSplitFields line).getD k [] = csvField ((splitOnChar ',' line).getD k []) ∧
    (excelHeaders row).getD k [] = [] := by
  constructor
  · show ((splitOnChar ',' line).map csvField).getD k (csvField []) =
      csvField ((splitOnChar ',' line).getD k [])
    exact List.getD_map (splitOnChar ',' line) [] csvField
  · show (row.map (fun h => (jsOr h (JsVal.str [])).toJsString)).getD k
      ((fun h => (jsOr h (JsVal.str [])).toJsString) JsVal.undef) = []
    rw [List.getD_map row JsVal.undef]
    rw [List.getD_eq_getElem?_getD] at hk
    simp [jsOr, hk, JsVal.toJsString]

/-- C5 (witness): applying the amended theorem to the header line `a,,b` at
slot 1 and to a spreadsheet header row whose cell is null at slot 0. -/
theorem C5_amended_witness :
    (csvSplitFields "a,,b".data).getD 1 [] =
      csvField ((splitOnChar ',' "a,,b".data).getD 1 []) ∧
    (excelHeaders [JsVal.null]).getD 0 [] = [] :=
  ⟨(C5_amended "a,,b".data [JsVal.null] 1 (by decide)).1,
   (C5_amended "a,,b".data [JsVal.null] 0 (by decide)).2⟩

/-- C6 (counterexample): the cell `ab"cd` has no surrounding quotes, yet its
interior quote character is deleted by the field cleanup: interior quotes are
not preserved. -/
theorem C6_counterexample :
    csvField "ab\"cd".data = "abcd".data ∧ "abcd".data ≠ "ab\"cd".data := by
  decide

/-- C6 (amended): each CSV header and cell value is stripped of surrounding
whitespace and then every double-quote character is removed wherever it
occurs (interior quotes included); all other characters of the trimmed cell
are preserved with their multiplicities. -/
theorem C6_amended (cell : Str) (c : Char) (hc : c ≠ '"') :
    '"' ∉ csvField cell ∧ (csvField cell).count c = (trimChars cell).count c := by
  constructor
  · intro hmem
    unfold csvField at hmem
    simp [List.mem_filter] at hmem
  · unfold csvField
    exact List.count_filter (by simp [hc])

/-- C6 (witness): applying the amended theorem to a concrete quoted cell. -/
theorem C6_amended_witness :
    '"' ∉ csvField " \"a\"b ".data ∧
    (csvField " \"a\"b ".data).count 'b' = (trimChars " \"a\"b ".data).count 'b' :=
  C6_amended " \"a\"b ".data 'b' (by decide)

/-- C7: when the backend responds non-2xx (e.g. a 4xx rejection) with a
truthy `detail` reason string in its body, `uploadFile` yields a rejection
carrying exactly that backend-supplied reason, polling is not started, no
file id is stored, and the coordinator state is unchanged except that the
`finally` branch resets `isProcessing` to false. -/
theorem C7_rejected_upload (resp : UploadResponse) (s : CoordState)
    (hok : resp.ok = false) (hd : resp.detail.truthy = true) :
    (uploadFile resp s).2 = UploadOutcome.rejected resp.detail ∧
    (uploadFile resp s).1.isPolling = s.isPolling ∧
    (uploadFile resp s).1.currentFileId = s.currentFileId ∧
    (uploadFile resp s).1.uploadSuccess = s.uploadSuccess ∧
    (uploadFile resp s).1.isProcessing = false := by
  unfold uploadFile
  simp [hok, jsOr, hd]

/-- C7 (witness): applying the theorem to a 400 response with reason
`bad header` on an idle coordinator. -/
theorem C7_rejected_upload_witness :
    (uploadFile rejectResp idleCoord).2 =
      UploadOutcome.rejected (JsVal.str "bad header".data) ∧
    (uploadFile rejectResp idleCoord).1.isPolling = false :=
  ⟨(C7_rejected_upload rejectResp idleCoord rfl rfl).1,
   (C7_rejected_upload rejectResp idleCoord rfl rfl).2.1⟩

/-- C8: decoding CSV text yields exactly one record per non-blank data line
(every non-blank line after the header line), and appending trailing blank
lines (each a newline followed by newline-free whitespace) leaves the record
list unchanged. -/
theorem C8_records_per_line (text : Str) (blanks : List Str)
    (hb : ∀ b ∈ blanks, (∀ c ∈ b, c.isWhitespace) ∧ '\n' ∉ b) :
    (csvParse (text ++ (blanks.map (fun b => '\n' :: b)).flatten)).2 =
      (csvParse text).2 ∧
    ((csvParse text).2).length = (nonBlankLines text).length - 1 := by
  constructor
  · rw [csvParse_append_blanks text blanks hb]
  · unfold csvParse
    cases h : nonBlankLines text with
    | nil => simp
    | cons l ls => simp

/-- C8 (witness): the spec's own example, `name,age` with two data rows and
two trailing blank lines. -/
theorem C8_records_per_line_witness :
    (csvParse ("name,age\nAda,36\nLinus,55".data ++
        (([[], []] : List Str).map (fun b => '\n' :: b)).flatten)).2 =
      (csvParse "name,age\nAda,36\nLinus,55".data).2 ∧
    ((csvParse "name,age\nAda,36\nLinus,55".data).2).length =
      (nonBlankLines "name,age\nAda,36\nLinus,55".data).length - 1 :=
  C8_records_per_line "name,age\nAda,36\nLinus,55".data [[], []] (by decide)

/-- C9 (counterexample): the CSV table `a,a` over the row `x,y` has the header
sequence `["a", "a"]`, but the single record's key list is `["a"]`: duplicate
headers collapse, so the key set is not equal to the header sequence. -/
theorem C9_counterexample :
    (csvParse "a,a\nx,y".data).1 = ["a".data, "a".data] ∧
    ((csvParse "a,a\nx,y".data).2).map keysOf = [["a".data]] ∧
    ["a".data] ≠ ["a".data, "a".data] := by
  decide

/-- C9 (amended): for a fixed DecodedTable the key list is identical across
all records — it depends only on the header sequence, for CSV and spreadsheet
rows alike — and it equals the header sequence itself when the headers are
duplicate-free; duplicate headers collapse onto a single key. -/
theorem C9_amended (headers : List Str) (values : List Str) (row : List JsVal) :
    keysOf (buildCsvRecord headers values) = keysOf (buildExcelRecord headers row) ∧
    (headers.Nodup → keysOf (buildCsvRecord headers values) = headers) := by
  constructor
  · exact keysOf_buildRecord headers _ _
  · intro h
    unfold buildCsvRecord
    rw [buildRecord_of_nodup headers _ h]
    unfold keysOf
    rw [List.map_map]
    have hc : (Prod.fst ∘ fun p : Nat × Str => (p.2, JsVal.str (values.getD p.1 []))) =
        Prod.snd := rfl
    rw [hc, List.enum_map_snd]

/-- C9 (witness): applying the amended theorem to a duplicated and to a
duplicate-free header list. -/
theorem C9_amended_witness :
    keysOf (buildCsvRecord ["a".data, "a".data] ["x".data, "y".data]) =
      keysOf (buildExcelRecord ["a".data, "a".data] []) ∧
    keysOf (buildCsvRecord ["a".data, "b".data] ["x".data]) = ["a".data, "b".data] :=
  ⟨(C9_amended ["a".data, "a".data] ["x".data, "y".data] []).1,
   (C9_amended ["a".data, "b".data] ["x".data] []).2 (by decide)⟩

/-- C10: a successful poll that returns an empty record list converges
immediately: the all-done check is vacuously true, the snapshot is replaced
by the empty list, the poll reports completion and polling stops, although no
record ever reached status `done`. -/
theorem C10_empty_snapshot (s : TrackerState) :
    (fetchScrapRecords (some []) s).2 = true ∧
    (fetchScrapRecords (some []) s).1.isPolling = false ∧
    (fetchScrapRecords (some []) s).1.scrapRecords = [] := by
  simp [fetchScrapRecords, allDone]

end FileDashWizard
